import Mathlib

/-!
Shallow embedding of the LoanMonk (CreditMind) scoring engine.

Sources embedded (rational arithmetic stands in for IEEE doubles; every
numeric literal in the source is exactly representable as a rational):
- src/lib/scoring/pd.ts        : PD pipeline
- src/lib/scoring/blending.ts  : phase-1/phase-2 blending, consistency index
- src/lib/scoring/loan.ts      : loan decision
- src/lib/constants/index.ts   : weights and thresholds
- OCEAN trait scoring engine (normalize/denormalize, variance-driven
  question selection, completion test)
- Phase 2 behavioral score computation (Supply Run signals); divisions and
  square roots that could produce NaN/Infinity are modelled in the Option
  monad via divO/sqrtO, so totality of the embedding is exactly the
  absence of NaN/Infinity in the original.
-/

namespace LoanMonk

/-- OCEAN trait enumeration. -/
inductive OceanTrait where
  | O | C | E | A | N
deriving DecidableEq, Repr

/-- Risk rating enumeration. -/
inductive RiskRating where
  | low | moderate | elevated
deriving DecidableEq, Repr

/-- Internal assessment decision enumeration (`AssessmentDecision` in types). -/
inductive AssessmentDecision where
  | approved | pending_approval | manual_review | declined
deriving DecidableEq, Repr

/-- Consistency flag enumeration (`ConsistencyFlag` in types). -/
inductive ConsistencyFlag where
  | highly_consistent | normal_variance | moderate_discrepancy | high_discrepancy
deriving DecidableEq, Repr

/-- Raw-scale (1..5) OCEAN scores. -/
structure OceanScores where
  O : ℚ
  C : ℚ
  E : ℚ
  A : ℚ
  N : ℚ
deriving DecidableEq, Repr

/-- Normalized (0..1) OCEAN scores (phase-2 behavioral output). -/
structure NormalizedOceanScores where
  O : ℚ
  C : ℚ
  E : ℚ
  A : ℚ
  N : ℚ
deriving DecidableEq, Repr

/-- Per-trait measurement variances. -/
structure TraitVariances where
  O : ℚ
  C : ℚ
  E : ℚ
  A : ℚ
  N : ℚ
deriving DecidableEq, Repr

/-- Result of `computeConsistencyIndex` (`ConsistencyIndex` in types). -/
structure ConsistencyIndex where
  C : ℚ
  N : ℚ
  A : ℚ
  O : ℚ
  E : ℚ
  overall : ℚ
  flag : ConsistencyFlag
deriving DecidableEq, Repr

-- ============ constants/index.ts ============

/-- OCEAN trait weights for the PD calculation (`TRAIT_WEIGHTS`). -/
def TRAIT_WEIGHTS : OceanTrait → ℚ
  | .C => 0.35
  | .N => 0.25
  | .A => 0.18
  | .O => 0.12
  | .E => 0.10

/-- PD floor (`PD_MIN`). -/
def PD_MIN : ℚ := 0.02

/-- PD ceiling (`PD_MAX`). -/
def PD_MAX : ℚ := 0.35

/-- `PD_RANGE = PD_MAX - PD_MIN`. -/
def PD_RANGE : ℚ := PD_MAX - PD_MIN

/-- Risk rating thresholds (`RISK_THRESHOLDS.low`). -/
def RISK_THRESHOLDS_low : ℚ := 0.08

/-- Risk rating thresholds (`RISK_THRESHOLDS.moderate`). -/
def RISK_THRESHOLDS_moderate : ℚ := 0.18

/-- Phase 1 / Phase 2 blending weights (`BLENDING_WEIGHTS`), as
(phase1, phase2) pairs. -/
def BLENDING_WEIGHTS : OceanTrait → ℚ × ℚ
  | .C => (0.55, 0.45)
  | .N => (0.50, 0.50)
  | .A => (0.60, 0.40)
  | .O => (0.45, 0.55)
  | .E => (0.55, 0.45)

/-- `CONSISTENCY_THRESHOLDS.highly_consistent`. -/
def CONSISTENCY_THRESHOLDS_highly_consistent : ℚ := 0.20

/-- `CONSISTENCY_THRESHOLDS.normal_variance`. -/
def CONSISTENCY_THRESHOLDS_normal_variance : ℚ := 0.40

/-- `CONSISTENCY_THRESHOLDS.moderate_discrepancy`. -/
def CONSISTENCY_THRESHOLDS_moderate_discrepancy : ℚ := 0.60

/-- `LOAN_THRESHOLDS.auto_approve_pd`. -/
def LOAN_THRESHOLDS_auto_approve_pd : ℚ := 0.08

/-- `LOAN_THRESHOLDS.manual_review_pd`. -/
def LOAN_THRESHOLDS_manual_review_pd : ℚ := 0.18

/-- `LOAN_THRESHOLDS.consistency_review_threshold`. -/
def LOAN_THRESHOLDS_consistency_review_threshold : ℚ := 0.40

/-- `LOAN_PARAMS.max_amount` by risk rating. -/
def LOAN_PARAMS_max_amount : RiskRating → ℚ
  | .low => 50000
  | .moderate => 25000
  | .elevated => 10000

/-- `LOAN_PARAMS.duration_months` by risk rating. -/
def LOAN_PARAMS_duration_months : RiskRating → ℚ
  | .low => 36
  | .moderate => 24
  | .elevated => 12

/-- `LOAN_PARAMS.apr_percent` by risk rating. -/
def LOAN_PARAMS_apr_percent : RiskRating → ℚ
  | .low => 8.5
  | .moderate => 14.0
  | .elevated => 22.0

/-- `SUPPLY_RUN_CONFIG.max_cargo`. -/
def SUPPLY_RUN_CONFIG_max_cargo : ℚ := 7

-- ============ OCEAN scoring engine (normalize / adaptive selection) ============

/-- `normalizeScore`: clamp a 1-5 OCEAN score into the 0-1 range via
`max(0, min(1, (score - 1) / 4))`. -/
def normalizeScore (score : ℚ) : ℚ :=
  max 0 (min 1 ((score - 1) / 4))

/-- `denormalizeScore`: map a 0-1 score back to the 1-5 range via
`1 + normalized * 4`. -/
def denormalizeScore (normalized : ℚ) : ℚ :=
  1 + normalized * 4

/-- Field access of a `TraitVariances` map by trait. -/
def TraitVariances.get (v : TraitVariances) : OceanTrait → ℚ
  | .O => v.O
  | .C => v.C
  | .E => v.E
  | .A => v.A
  | .N => v.N

/-- `selectHighestVarianceTrait`: loop over `['O','C','E','A','N']` keeping
the strictly greater variance, starting from `maxVariance = -1`,
`maxTrait = 'C'`. -/
def selectHighestVarianceTrait (variances : TraitVariances) : OceanTrait :=
  ([OceanTrait.O, .C, .E, .A, .N].foldl
    (fun acc t => if variances.get t > acc.1 then (variances.get t, t) else acc)
    ((-1 : ℚ), OceanTrait.C)).2

/-- `isAssessmentComplete`: stop when `count >= maxQuestions`; never stop
before `minQuestions`; otherwise stop iff every trait variance is strictly
below the threshold. -/
def isAssessmentComplete (variances : TraitVariances) (questionCount : ℕ)
    (varianceThreshold : ℚ) (minQuestions maxQuestions : ℕ) : Bool :=
  if questionCount ≥ maxQuestions then true
  else if questionCount < minQuestions then false
  else [variances.O, variances.C, variances.E, variances.A, variances.N].all
    (fun v => v < varianceThreshold)

-- ============ pd.ts ============

/-- The record returned by `computeRiskContributions` (keys C, N, A, O, E). -/
structure RiskContributions where
  C : ℚ
  N : ℚ
  A : ℚ
  O : ℚ
  E : ℚ
deriving DecidableEq, Repr

/-- `computeRiskContributions`: C inverted (`(5-C)/4`), the rest direct
(`(x-1)/4`). -/
def computeRiskContributions (scores : OceanScores) : RiskContributions :=
  { C := (5 - scores.C) / 4
    N := (scores.N - 1) / 4
    A := (scores.A - 1) / 4
    O := (scores.O - 1) / 4
    E := (scores.E - 1) / 4 }

/-- `computeWeightedRisk`: trait-weighted sum of the risk contributions. -/
def computeWeightedRisk (scores : OceanScores) : ℚ :=
  let risks := computeRiskContributions scores
  TRAIT_WEIGHTS .C * risks.C +
  TRAIT_WEIGHTS .N * risks.N +
  TRAIT_WEIGHTS .A * risks.A +
  TRAIT_WEIGHTS .O * risks.O +
  TRAIT_WEIGHTS .E * risks.E

/-- `computePD`: `min(PD_MAX, max(PD_MIN, PD_MIN + weightedRisk * PD_RANGE))`. -/
def computePD (scores : OceanScores) : ℚ :=
  let weightedRisk := computeWeightedRisk scores
  min PD_MAX (max PD_MIN (PD_MIN + weightedRisk * PD_RANGE))

/-- `applyProfileModifier`: add the money-profile modifier, clamping back to
`[PD_MIN, PD_MAX]`. -/
def applyProfileModifier (pd modifier : ℚ) : ℚ :=
  let modified := pd + modifier
  min PD_MAX (max PD_MIN modified)

/-- `getRiskRating`: band the PD into low / moderate / elevated. -/
def getRiskRating (pd : ℚ) : RiskRating :=
  if pd < RISK_THRESHOLDS_low then .low
  else if pd < RISK_THRESHOLDS_moderate then .moderate
  else .elevated

/-- The record returned by `calculateFullPD`. -/
structure FullPDResult where
  riskContributions : RiskContributions
  weightedRisk : ℚ
  pdRaw : ℚ
  pdModified : ℚ
  riskRating : RiskRating
deriving DecidableEq, Repr

/-- `calculateFullPD`: full pipeline (contributions, weighted risk, raw PD,
modified PD, rating). -/
def calculateFullPD (scores : OceanScores) (profileModifier : ℚ) : FullPDResult :=
  let riskContributions := computeRiskContributions scores
  let weightedRisk := computeWeightedRisk scores
  let pdRaw := computePD scores
  let pdModified := applyProfileModifier pdRaw profileModifier
  let riskRating := getRiskRating pdModified
  { riskContributions, weightedRisk, pdRaw, pdModified, riskRating }

-- ============ blending.ts ============

/-- Field access of raw scores by trait. -/
def OceanScores.get (s : OceanScores) : OceanTrait → ℚ
  | .O => s.O
  | .C => s.C
  | .E => s.E
  | .A => s.A
  | .N => s.N

/-- Field access of normalized scores by trait. -/
def NormalizedOceanScores.get (s : NormalizedOceanScores) : OceanTrait → ℚ
  | .O => s.O
  | .C => s.C
  | .E => s.E
  | .A => s.A
  | .N => s.N

/-- Per-trait blend used by `blendScores`:
`denormalize(w1 * normalize(phase1) + w2 * phase2)`. -/
def blendTrait (phase1Scores : OceanScores) (phase2Scores : NormalizedOceanScores)
    (trait : OceanTrait) : ℚ :=
  let weights := BLENDING_WEIGHTS trait
  let phase1Normalized := normalizeScore (phase1Scores.get trait)
  denormalizeScore (weights.1 * phase1Normalized + weights.2 * phase2Scores.get trait)

/-- `blendScores`: per-trait weighted blend of phase-1 (self-report, 1-5) and
phase-2 (behavioral, 0-1) scores, returned on the 1-5 scale. -/
def blendScores (phase1Scores : OceanScores) (phase2Scores : NormalizedOceanScores) :
    OceanScores :=
  { O := blendTrait phase1Scores phase2Scores .O
    C := blendTrait phase1Scores phase2Scores .C
    E := blendTrait phase1Scores phase2Scores .E
    A := blendTrait phase1Scores phase2Scores .A
    N := blendTrait phase1Scores phase2Scores .N }

/-- `getConsistencyFlag`: band the overall consistency score. -/
def getConsistencyFlag (overall : ℚ) : ConsistencyFlag :=
  if overall < CONSISTENCY_THRESHOLDS_highly_consistent then .highly_consistent
  else if overall < CONSISTENCY_THRESHOLDS_normal_variance then .normal_variance
  else if overall < CONSISTENCY_THRESHOLDS_moderate_discrepancy then .moderate_discrepancy
  else .high_discrepancy

/-- Per-trait absolute discrepancy used by `computeConsistencyIndex`. -/
def consistencyPerTrait (phase1Scores : OceanScores)
    (phase2Scores : NormalizedOceanScores) (trait : OceanTrait) : ℚ :=
  |normalizeScore (phase1Scores.get trait) - phase2Scores.get trait|

/-- `computeConsistencyIndex`: per-trait |normalize(phase1) - phase2|,
trait-importance-weighted overall (reduce over `['O','C','E','A','N']`), and
its flag. -/
def computeConsistencyIndex (phase1Scores : OceanScores)
    (phase2Scores : NormalizedOceanScores) : ConsistencyIndex :=
  let perTrait := consistencyPerTrait phase1Scores phase2Scores
  let overall := [OceanTrait.O, .C, .E, .A, .N].foldl
    (fun sum trait => sum + TRAIT_WEIGHTS trait * perTrait trait) 0
  { C := perTrait .C
    N := perTrait .N
    A := perTrait .A
    O := perTrait .O
    E := perTrait .E
    overall := overall
    flag := getConsistencyFlag overall }

-- ============ loan.ts ============

/-- The fields of `LoanDecisionResult` that carry decision data (the three
`*Basis` strings are display formatting and are not modelled).
`userFacingDecision` is typed with the full decision enumeration here so
that its restriction to approved/pending_approval is a proved property of
the function rather than of the embedded type. -/
structure LoanDecisionResult where
  decision : AssessmentDecision
  userFacingDecision : AssessmentDecision
  maxAmount : ℚ
  durationMonths : ℚ
  aprPercent : ℚ
deriving DecidableEq, Repr

/-- `determineLoanDecision`: consistency override first, then PD bands;
a null consistency index contributes `overall = 0`. -/
def determineLoanDecision (pd : ℚ) (riskRating : RiskRating)
    (consistency : Option ConsistencyIndex) : LoanDecisionResult :=
  let consistencyOverall := (consistency.map (fun c => c.overall)).getD 0
  let dp : AssessmentDecision × AssessmentDecision :=
    if consistencyOverall > LOAN_THRESHOLDS_consistency_review_threshold then
      (.manual_review, .pending_approval)
    else if pd < LOAN_THRESHOLDS_auto_approve_pd then
      (.approved, .approved)
    else if pd < LOAN_THRESHOLDS_manual_review_pd then
      (.pending_approval, .pending_approval)
    else
      (.manual_review, .pending_approval)
  { decision := dp.1
    userFacingDecision := dp.2
    maxAmount := LOAN_PARAMS_max_amount riskRating
    durationMonths := LOAN_PARAMS_duration_months riskRating
    aprPercent := LOAN_PARAMS_apr_percent riskRating }

-- ============ Phase 2 behavioral score computation ============

/-- A cargo delivery record (`CargoLoad`). -/
structure CargoLoad where
  crates : ℚ
  tipped : Bool
deriving DecidableEq, Repr

/-- A delivery path record (`PathRecord`). -/
structure PathRecord where
  optimal_dist : ℚ
  actual_dist : ℚ
deriving DecidableEq, Repr

/-- A banking event (`BankingEvent`). -/
structure BankingEvent where
  timestamp_ms : ℚ
deriving DecidableEq, Repr

/-- A cargo/coin loss event with its normalized behavior delta. -/
structure LossEvent where
  behavior_delta : ℚ
deriving DecidableEq, Repr

/-- A sharing/help/tipping interaction event. -/
structure SharingEvent where
  offered : Bool
  accepted : Bool
  reward_split : ℚ
deriving DecidableEq, Repr

/-- The raw Supply Run signal bundle (`BehavioralSignals`). -/
structure BehavioralSignals where
  path_records : List PathRecord
  banking_events : List BankingEvent
  tap_velocities : List ℚ
  cargo_loads : List CargoLoad
  loss_events : List LossEvent
  sharing_events : List SharingEvent
  multi_order_counts : List ℚ
  exploration_tiles : ℚ
  total_tiles : ℚ
  crowd_time_ms : ℚ
  quiet_time_ms : ℚ
  duration_ms : ℚ
deriving Repr

/-- `clamp01`: clamp a value into `[0, 1]`. -/
def clamp01 (value : ℚ) : ℚ :=
  max 0 (min 1 value)

/-- Checked division: `none` exactly when the JS division would yield
`NaN` or `Infinity` (zero denominator). -/
def divO (a b : ℚ) : Option ℚ :=
  if b = 0 then none else some (a / b)

/-- The five normalized behavioral trait scores. The embedding is
parametrized by `sqrtFn`, standing for `Math.sqrt` on its non-negative
domain (rationals have no internal square root); `sqrtO` returns `none`
exactly when the JS `Math.sqrt` would yield `NaN` (negative argument). -/
def sqrtO (sqrtFn : ℚ → ℚ) (x : ℚ) : Option ℚ :=
  if x < 0 then none else some (sqrtFn x)

/-- `computePathEfficiency`: mean of per-path `min(1, optimal/actual)`
(0 for non-positive actual distance); 0.5 when there are no paths. -/
def computePathEfficiency (paths : List PathRecord) : Option ℚ :=
  if paths.length = 0 then some 0.5
  else
    let efficiencies := paths.map (fun p =>
      if p.actual_dist > 0 then min 1 (p.optimal_dist / p.actual_dist) else 0)
    divO efficiencies.sum (efficiencies.length : ℚ)

/-- Consecutive banking intervals: `events[i].timestamp_ms - events[i-1].timestamp_ms`. -/
def bankingIntervals (events : List BankingEvent) : List ℚ :=
  (events.zip events.tail).map (fun p => p.2.timestamp_ms - p.1.timestamp_ms)

/-- `computeBankingRegularity`: 0.2 with no events, 0.5 with exactly one;
otherwise `clamp01(1 - cv/2)` where `cv` is the coefficient of variation of
the banking intervals (0.5 when the interval mean is zero). The
`totalDuration` argument is accepted and unused, as in the source. -/
def computeBankingRegularity (sqrtFn : ℚ → ℚ) (events : List BankingEvent)
    (totalDuration : ℚ) : Option ℚ :=
  if events.length < 2 then some (if events.length = 1 then 0.5 else 0.2)
  else do
    let intervals := bankingIntervals events
    let mean ← divO intervals.sum (intervals.length : ℚ)
    if mean = 0 then pure 0.5
    else do
      let variance ← divO ((intervals.map (fun v => (v - mean) ^ 2)).sum)
        (intervals.length : ℚ)
      let std ← sqrtO sqrtFn variance
      let cv ← divO std mean
      pure (clamp01 (1 - cv / 2))

/-- `computeTapDeliberation`: band the mean tap interval into the
deliberation ladder; 0.5 with no taps. -/
def computeTapDeliberation (velocities : List ℚ) : Option ℚ :=
  if velocities.length = 0 then some 0.5
  else do
    let avgInterval ← divO velocities.sum (velocities.length : ℚ)
    pure (if avgInterval < 200 then 0.2
      else if avgInterval < 400 then 0.5
      else if avgInterval < 800 then 0.9
      else if avgInterval < 1200 then 0.7
      else 0.4)

/-- `computePostLossChange`: mean |behavior_delta| over loss events, clamped;
0.3 with no losses. The `velocities` argument is accepted and unused, as in
the source. -/
def computePostLossChange (lossEvents : List LossEvent) (velocities : List ℚ) :
    Option ℚ :=
  if lossEvents.length = 0 then some 0.3
  else do
    let avgDelta ← divO ((lossEvents.map (fun e => |e.behavior_delta|)).sum)
      (lossEvents.length : ℚ)
    pure (clamp01 avgDelta)

/-- `computeHesitationPattern`: `clamp01(cv / 1.5)` over tap intervals
(`cv = 0` for non-positive mean); 0.5 with fewer than 3 taps. -/
def computeHesitationPattern (sqrtFn : ℚ → ℚ) (velocities : List ℚ) : Option ℚ :=
  if velocities.length < 3 then some 0.5
  else do
    let mean ← divO velocities.sum (velocities.length : ℚ)
    let variance ← divO ((velocities.map (fun v => (v - mean) ^ 2)).sum)
      (velocities.length : ℚ)
    let std ← sqrtO sqrtFn variance
    let cv := if mean > 0 then std / mean else 0
    pure (clamp01 (cv / 1.5))

/-- `computeSharingRate`: accepted/offered sharing ratio (0.5 with no events
or no offers). -/
def computeSharingRate (events : List SharingEvent) : Option ℚ :=
  if events.length = 0 then some 0.5
  else
    let accepted := (events.filter (fun e => e.offered && e.accepted)).length
    let offered := (events.filter (fun e => e.offered)).length
    some (if offered > 0 then (accepted : ℚ) / (offered : ℚ) else 0.5)

/-- `computeTipRate`: mean reward split, clamped; 0.5 with no events. -/
def computeTipRate (events : List SharingEvent) : Option ℚ :=
  if events.length = 0 then some 0.5
  else do
    let avgSplit ← divO ((events.map (fun e => e.reward_split)).sum)
      (events.length : ℚ)
    pure (clamp01 avgSplit)

/-- `computeHelpAcceptance`: acceptance ratio among offered-help events;
0.5 with no events or no offers. -/
def computeHelpAcceptance (events : List SharingEvent) : Option ℚ :=
  if events.length = 0 then some 0.5
  else
    let helpOffered := events.filter (fun e => e.offered)
    if helpOffered.length = 0 then some 0.5
    else
      let accepted := (helpOffered.filter (fun e => e.accepted)).length
      divO (accepted : ℚ) (helpOffered.length : ℚ)

/-- `computeShortcutUsage`: fraction of paths with
`actual_dist < optimal_dist * 0.95`, clamped; 0.5 with no paths. -/
def computeShortcutUsage (paths : List PathRecord) : Option ℚ :=
  if paths.length = 0 then some 0.5
  else do
    let shortcuts := (paths.filter
      (fun p => p.actual_dist < p.optimal_dist * 0.95)).length
    let ratioValue ← divO (shortcuts : ℚ) (paths.length : ℚ)
    pure (clamp01 ratioValue)

/-- `computeMultiOrderRate`: fraction of deliveries carrying more than one
simultaneous order; 0.5 with no deliveries. -/
def computeMultiOrderRate (counts : List ℚ) : Option ℚ :=
  if counts.length = 0 then some 0.5
  else
    let multi := (counts.filter (fun c => c > 1)).length
    divO (multi : ℚ) (counts.length : ℚ)

/-- `computeBartScore`: mean crate count over non-tipped deliveries,
normalized by `max_cargo = 7` and clamped; 0.5 with no non-tipped data. -/
def computeBartScore (cargoLoads : List CargoLoad) : Option ℚ :=
  let successful := cargoLoads.filter (fun c => !c.tipped)
  if successful.length = 0 then some 0.5
  else do
    let avgCrates ← divO ((successful.map (fun c => c.crates)).sum)
      (successful.length : ℚ)
    pure (clamp01 (avgCrates / SUPPLY_RUN_CONFIG_max_cargo))

/-- `computeBehavioralC`: 40% path efficiency, 35% banking regularity,
25% tap deliberation. -/
def computeBehavioralC (sqrtFn : ℚ → ℚ) (signals : BehavioralSignals) : Option ℚ := do
  let pathEfficiency ← computePathEfficiency signals.path_records
  let bankingRegularity ← computeBankingRegularity sqrtFn signals.banking_events
    signals.duration_ms
  let tapDeliberation ← computeTapDeliberation signals.tap_velocities
  pure (clamp01 (0.40 * pathEfficiency + 0.35 * bankingRegularity +
    0.25 * tapDeliberation))

/-- `computeBehavioralN`: 40% post-loss change, 30% hesitation, 30% inverse
BART score. -/
def computeBehavioralN (sqrtFn : ℚ → ℚ) (signals : BehavioralSignals) : Option ℚ := do
  let postLossChange ← computePostLossChange signals.loss_events signals.tap_velocities
  let hesitationPattern ← computeHesitationPattern sqrtFn signals.tap_velocities
  let bart ← computeBartScore signals.cargo_loads
  let inverseBart := 1 - bart
  pure (clamp01 (0.40 * postLossChange + 0.30 * hesitationPattern +
    0.30 * inverseBart))

/-- `computeBehavioralA`: 40% sharing rate, 30% tip rate, 30% help
acceptance. -/
def computeBehavioralA (signals : BehavioralSignals) : Option ℚ := do
  let sharingRate ← computeSharingRate signals.sharing_events
  let tipRate ← computeTipRate signals.sharing_events
  let helpAcceptance ← computeHelpAcceptance signals.sharing_events
  pure (clamp01 (0.40 * sharingRate + 0.30 * tipRate + 0.30 * helpAcceptance))

/-- `computeBehavioralO`: 35% exploration rate (0 when there are no tiles),
30% shortcut usage, 35% BART score. -/
def computeBehavioralO (signals : BehavioralSignals) : Option ℚ := do
  let explorationRate := if signals.total_tiles > 0 then
    signals.exploration_tiles / signals.total_tiles else 0
  let shortcutUsage ← computeShortcutUsage signals.path_records
  let bartScore ← computeBartScore signals.cargo_loads
  pure (clamp01 (0.35 * explorationRate + 0.30 * shortcutUsage + 0.35 * bartScore))

/-- `computeBehavioralE`: 55% crowd affinity (0.5 when total zone time is
zero), 45% multi-order rate. -/
def computeBehavioralE (signals : BehavioralSignals) : Option ℚ := do
  let totalTime := signals.crowd_time_ms + signals.quiet_time_ms
  let crowdAffinity := if totalTime > 0 then signals.crowd_time_ms / totalTime else 0.5
  let multiOrderRate ← computeMultiOrderRate signals.multi_order_counts
  pure (clamp01 (0.55 * crowdAffinity + 0.45 * multiOrderRate))

/-- `computeAllBehavioralScores`: package the five behavioral trait scores. -/
def computeAllBehavioralScores (sqrtFn : ℚ → ℚ) (signals : BehavioralSignals) :
    Option NormalizedOceanScores := do
  let c ← computeBehavioralC sqrtFn signals
  let n ← computeBehavioralN sqrtFn signals
  let a ← computeBehavioralA signals
  let o ← computeBehavioralO signals
  let e ← computeBehavioralE signals
  pure { C := c, N := n, A := a, O := o, E := e }

-- ============ Helper lemmas ============

/-- Clamping into `[lo, hi]` lands in `[lo, hi]` whenever `lo ≤ hi`. -/
lemma clamp_mem (x lo hi : ℚ) (h : lo ≤ hi) :
    lo ≤ min hi (max lo x) ∧ min hi (max lo x) ≤ hi :=
  ⟨le_min h (le_max_left lo x), min_le_left hi _⟩

/-- On `[1, 5]`, `normalizeScore` is the unclamped affine map. -/
lemma normalizeScore_of_bounds (r : ℚ) (h1 : 1 ≤ r) (h5 : r ≤ 5) :
    normalizeScore r = (r - 1) / 4 := by
  unfold normalizeScore
  rw [min_eq_right (by linarith), max_eq_right (by linarith)]

-- ============ Claims ============

/-- Claim C1: for every PD value, risk rating, and non-null consistency
index, `determineLoanDecision` branches exactly as specified: the
`overall > 0.40` consistency override takes precedence (manual_review /
pending_approval), then `pd < 0.08` auto-approves, then `pd < 0.18` yields
pending_approval, else manual_review; the user-facing value is approved
only on the auto-approve branch and pending_approval otherwise. -/
theorem determineLoanDecision_branches (pd : ℚ) (riskRating : RiskRating)
    (ci : ConsistencyIndex) :
    (determineLoanDecision pd riskRating (some ci)).decision =
      (if ci.overall > 0.40 then AssessmentDecision.manual_review
       else if pd < 0.08 then AssessmentDecision.approved
       else if pd < 0.18 then AssessmentDecision.pending_approval
       else AssessmentDecision.manual_review) ∧
    (determineLoanDecision pd riskRating (some ci)).userFacingDecision =
      (if ci.overall > 0.40 then AssessmentDecision.pending_approval
       else if pd < 0.08 then AssessmentDecision.approved
       else if pd < 0.18 then AssessmentDecision.pending_approval
       else AssessmentDecision.pending_approval) := by
  unfold determineLoanDecision LOAN_THRESHOLDS_consistency_review_threshold
    LOAN_THRESHOLDS_auto_approve_pd LOAN_THRESHOLDS_manual_review_pd
  simp only [Option.map_some', Option.getD_some]
  constructor <;> split_ifs <;> simp_all

/-- Claim C2: for every input, including a null consistency index, the
user-facing decision of `determineLoanDecision` is `approved` or
`pending_approval` — never `declined`, `manual_review`, or anything else. -/
theorem determineLoanDecision_userFacing_restricted (pd : ℚ)
    (riskRating : RiskRating) (consistency : Option ConsistencyIndex) :
    (determineLoanDecision pd riskRating consistency).userFacingDecision =
      AssessmentDecision.approved ∨
    (determineLoanDecision pd riskRating consistency).userFacingDecision =
      AssessmentDecision.pending_approval := by
  cases consistency with
  | none =>
    unfold determineLoanDecision
    simp only [Option.map_none', Option.getD_none]
    split_ifs <;> simp
  | some ci =>
    unfold determineLoanDecision
    simp only [Option.map_some', Option.getD_some]
    split_ifs <;> simp

/-- Claim C3: with all five trait scores in `[1, 5]`, every risk
contribution lies in `[0, 1]` and the weighted risk lies in `[0, 1]`;
unconditionally, `computePD` lies in `[0.02, 0.35]` (even for trait inputs
outside `[1, 5]`), and `applyProfileModifier` lies in `[0.02, 0.35]` for
every PD and modifier. -/
theorem pd_pipeline_bounds :
    (∀ s : OceanScores,
      1 ≤ s.O → s.O ≤ 5 → 1 ≤ s.C → s.C ≤ 5 → 1 ≤ s.E → s.E ≤ 5 →
      1 ≤ s.A → s.A ≤ 5 → 1 ≤ s.N → s.N ≤ 5 →
      (0 ≤ (computeRiskContributions s).C ∧ (computeRiskContributions s).C ≤ 1) ∧
      (0 ≤ (computeRiskContributions s).N ∧ (computeRiskContributions s).N ≤ 1) ∧
      (0 ≤ (computeRiskContributions s).A ∧ (computeRiskContributions s).A ≤ 1) ∧
      (0 ≤ (computeRiskContributions s).O ∧ (computeRiskContributions s).O ≤ 1) ∧
      (0 ≤ (computeRiskContributions s).E ∧ (computeRiskContributions s).E ≤ 1) ∧
      (0 ≤ computeWeightedRisk s ∧ computeWeightedRisk s ≤ 1)) ∧
    (∀ s : OceanScores, 0.02 ≤ computePD s ∧ computePD s ≤ 0.35) ∧
    (∀ pd modifier : ℚ,
      0.02 ≤ applyProfileModifier pd modifier ∧
      applyProfileModifier pd modifier ≤ 0.35) := by
  refine ⟨?_, ?_, ?_⟩
  · intro s hO1 hO5 hC1 hC5 hE1 hE5 hA1 hA5 hN1 hN5
    simp only [computeWeightedRisk, computeRiskContributions, TRAIT_WEIGHTS]
    norm_num
    refine ⟨⟨?_, ?_⟩, ⟨?_, ?_⟩, ⟨?_, ?_⟩, ⟨?_, ?_⟩, ⟨?_, ?_⟩, ?_, ?_⟩ <;> linarith
  · intro s
    have h := clamp_mem (PD_MIN + computeWeightedRisk s * PD_RANGE) PD_MIN PD_MAX
      (by unfold PD_MIN PD_MAX; norm_num)
    unfold computePD
    unfold PD_MIN PD_MAX at h ⊢
    exact h
  · intro pd modifier
    have h := clamp_mem (pd + modifier) PD_MIN PD_MAX
      (by unfold PD_MIN PD_MAX; norm_num)
    unfold applyProfileModifier
    unfold PD_MIN PD_MAX at h ⊢
    exact h

/-- Witness for Claim C3 at the all-3s trait vector. -/
theorem pd_pipeline_bounds_witness :
    0 ≤ (computeRiskContributions ⟨3, 3, 3, 3, 3⟩).C ∧
    (computeRiskContributions ⟨3, 3, 3, 3, 3⟩).C ≤ 1 :=
  (pd_pipeline_bounds.1 ⟨3, 3, 3, 3, 3⟩ (by norm_num) (by norm_num) (by norm_num)
    (by norm_num) (by norm_num) (by norm_num) (by norm_num) (by norm_num)
    (by norm_num) (by norm_num)).1

/-- Claim C9: `denormalizeScore` inverts `normalizeScore` on raw scores in
`[1, 5]` — exactly, in rational arithmetic. -/
theorem denormalize_normalize_roundtrip (r : ℚ) (h1 : 1 ≤ r) (h5 : r ≤ 5) :
    denormalizeScore (normalizeScore r) = r := by
  rw [normalizeScore_of_bounds r h1 h5]
  unfold denormalizeScore
  ring

/-- Witness for Claim C9 at `r = 2`. -/
theorem denormalize_normalize_roundtrip_witness :
    denormalizeScore (normalizeScore 2) = 2 :=
  denormalize_normalize_roundtrip 2 (by norm_num) (by norm_num)

/-- Counterexample to Claim C8: on Scenario A's trait vector
`{O:3, C:5, E:3, A:3, N:1}` with modifier 0, the code computes
`weightedRisk = 0.20` (not 0.08), `pd = 0.086` (not 0.0464), and rating
`moderate` (not low): the claim's Scenario A figures are false. -/
theorem scenarioA_figures_false :
    (calculateFullPD ⟨3, 5, 3, 3, 1⟩ 0).weightedRisk = 0.20 ∧
    (calculateFullPD ⟨3, 5, 3, 3, 1⟩ 0).weightedRisk ≠ 0.08 ∧
    (calculateFullPD ⟨3, 5, 3, 3, 1⟩ 0).pdRaw = 0.086 ∧
    (calculateFullPD ⟨3, 5, 3, 3, 1⟩ 0).pdRaw ≠ 0.0464 ∧
    (calculateFullPD ⟨3, 5, 3, 3, 1⟩ 0).riskRating = RiskRating.moderate := by
  refine ⟨?_, ?_, ?_, ?_, ?_⟩ <;>
  · simp only [calculateFullPD, computePD, applyProfileModifier, getRiskRating,
      computeWeightedRisk, computeRiskContributions, TRAIT_WEIGHTS, PD_MIN, PD_MAX,
      PD_RANGE, RISK_THRESHOLDS_low, RISK_THRESHOLDS_moderate, min_def, max_def]
    norm_num

/-- Claim C8 as amended: with modifier 0, Scenario A's vector
`{O:3, C:5, E:3, A:3, N:1}` gives risk contributions 0 for C and N,
`weightedRisk = 0.20`, `pd = 0.086` (ceiling not binding) and rating
`moderate`; Scenario B's vector `{O:3, C:1, E:3, A:3, N:5}` gives
contributions 1 for C and N, `weightedRisk = 0.80`, `pd = 0.284`
(ceiling not binding) and rating `elevated` — exactly, in rational
arithmetic. -/
theorem calculateFullPD_worked_scenarios :
    ((calculateFullPD ⟨3, 5, 3, 3, 1⟩ 0).riskContributions.C = 0 ∧
     (calculateFullPD ⟨3, 5, 3, 3, 1⟩ 0).riskContributions.N = 0 ∧
     (calculateFullPD ⟨3, 5, 3, 3, 1⟩ 0).weightedRisk = 0.20 ∧
     (calculateFullPD ⟨3, 5, 3, 3, 1⟩ 0).pdRaw = 0.086 ∧
     (calculateFullPD ⟨3, 5, 3, 3, 1⟩ 0).pdRaw < PD_MAX ∧
     (calculateFullPD ⟨3, 5, 3, 3, 1⟩ 0).riskRating = RiskRating.moderate) ∧
    ((calculateFullPD ⟨3, 1, 3, 3, 5⟩ 0).riskContributions.C = 1 ∧
     (calculateFullPD ⟨3, 1, 3, 3, 5⟩ 0).riskContributions.N = 1 ∧
     (calculateFullPD ⟨3, 1, 3, 3, 5⟩ 0).weightedRisk = 0.80 ∧
     (calculateFullPD ⟨3, 1, 3, 3, 5⟩ 0).pdRaw = 0.284 ∧
     (calculateFullPD ⟨3, 1, 3, 3, 5⟩ 0).pdRaw < PD_MAX ∧
     (calculateFullPD ⟨3, 1, 3, 3, 5⟩ 0).riskRating = RiskRating.elevated) := by
  refine ⟨⟨?_, ?_, ?_, ?_, ?_, ?_⟩, ⟨?_, ?_, ?_, ?_, ?_, ?_⟩⟩ <;>
  · simp only [calculateFullPD, computePD, applyProfileModifier, getRiskRating,
      computeWeightedRisk, computeRiskContributions, TRAIT_WEIGHTS, PD_MIN, PD_MAX,
      PD_RANGE, RISK_THRESHOLDS_low, RISK_THRESHOLDS_moderate, min_def, max_def]
    norm_num

/-- Structure extensionality for `OceanScores`. -/
lemma OceanScores.ext_manual (a b : OceanScores) (hO : a.O = b.O) (hC : a.C = b.C)
    (hE : a.E = b.E) (hA : a.A = b.A) (hN : a.N = b.N) : a = b := by
  cases a; cases b; simp_all

/-- Claim C4: `computeConsistencyIndex` returns per-trait absolute
differences between the normalized phase-1 score and the phase-2 score, an
overall equal to the importance-weighted average (C:0.35, N:0.25, A:0.18,
O:0.12, E:0.10) of the five differences, and a flag given by the half-open
bands `< 0.20`, `< 0.40`, `< 0.60`, else high; the eight listed boundary
values classify as claimed. -/
theorem computeConsistencyIndex_spec (p1 : OceanScores) (p2 : NormalizedOceanScores) :
    (computeConsistencyIndex p1 p2).C = |normalizeScore p1.C - p2.C| ∧
    (computeConsistencyIndex p1 p2).N = |normalizeScore p1.N - p2.N| ∧
    (computeConsistencyIndex p1 p2).A = |normalizeScore p1.A - p2.A| ∧
    (computeConsistencyIndex p1 p2).O = |normalizeScore p1.O - p2.O| ∧
    (computeConsistencyIndex p1 p2).E = |normalizeScore p1.E - p2.E| ∧
    (computeConsistencyIndex p1 p2).overall =
      0.35 * |normalizeScore p1.C - p2.C| + 0.25 * |normalizeScore p1.N - p2.N| +
      0.18 * |normalizeScore p1.A - p2.A| + 0.12 * |normalizeScore p1.O - p2.O| +
      0.10 * |normalizeScore p1.E - p2.E| ∧
    (computeConsistencyIndex p1 p2).flag =
      (if (computeConsistencyIndex p1 p2).overall < 0.20 then
        ConsistencyFlag.highly_consistent
       else if (computeConsistencyIndex p1 p2).overall < 0.40 then
        ConsistencyFlag.normal_variance
       else if (computeConsistencyIndex p1 p2).overall < 0.60 then
        ConsistencyFlag.moderate_discrepancy
       else ConsistencyFlag.high_discrepancy) ∧
    (getConsistencyFlag 0 = ConsistencyFlag.highly_consistent ∧
     getConsistencyFlag 0.199 = ConsistencyFlag.highly_consistent ∧
     getConsistencyFlag 0.20 = ConsistencyFlag.normal_variance ∧
     getConsistencyFlag 0.399 = ConsistencyFlag.normal_variance ∧
     getConsistencyFlag 0.40 = ConsistencyFlag.moderate_discrepancy ∧
     getConsistencyFlag 0.599 = ConsistencyFlag.moderate_discrepancy ∧
     getConsistencyFlag 0.60 = ConsistencyFlag.high_discrepancy ∧
     getConsistencyFlag 1 = ConsistencyFlag.high_discrepancy) := by
  refine ⟨rfl, rfl, rfl, rfl, rfl, ?_, ?_, ?_⟩
  · unfold computeConsistencyIndex consistencyPerTrait
    simp only [List.foldl_cons, List.foldl_nil, TRAIT_WEIGHTS,
      OceanScores.get, NormalizedOceanScores.get]
    ring
  · unfold computeConsistencyIndex getConsistencyFlag
      CONSISTENCY_THRESHOLDS_highly_consistent CONSISTENCY_THRESHOLDS_normal_variance
      CONSISTENCY_THRESHOLDS_moderate_discrepancy
    rfl
  · refine ⟨?_, ?_, ?_, ?_, ?_, ?_, ?_, ?_⟩ <;>
    · simp only [getConsistencyFlag, CONSISTENCY_THRESHOLDS_highly_consistent,
        CONSISTENCY_THRESHOLDS_normal_variance, CONSISTENCY_THRESHOLDS_moderate_discrepancy]
      norm_num

/-- Modelled from the claim: the phase-2 vector that agrees behaviorally
with a raw-scale vector `x`, namely `y[t] = (x[t] - 1) / 4` per trait
(spec-side definition for the C10 refinement statement). -/
def rawToNormalized (x : OceanScores) : NormalizedOceanScores :=
  { O := (x.O - 1) / 4
    C := (x.C - 1) / 4
    E := (x.E - 1) / 4
    A := (x.A - 1) / 4
    N := (x.N - 1) / 4 }

/-- Claim C10: blending a raw-scale vector in `[1,5]` with its own
per-trait normalization is the identity, because each trait's phase1 and
phase2 blending weights sum to 1. -/
theorem blendScores_self_identity (x : OceanScores)
    (hO1 : 1 ≤ x.O) (hO5 : x.O ≤ 5) (hC1 : 1 ≤ x.C) (hC5 : x.C ≤ 5)
    (hE1 : 1 ≤ x.E) (hE5 : x.E ≤ 5) (hA1 : 1 ≤ x.A) (hA5 : x.A ≤ 5)
    (hN1 : 1 ≤ x.N) (hN5 : x.N ≤ 5) :
    blendScores x (rawToNormalized x) = x := by
  apply OceanScores.ext_manual <;>
    simp only [blendScores, blendTrait, BLENDING_WEIGHTS, rawToNormalized,
      OceanScores.get, NormalizedOceanScores.get]
  · rw [normalizeScore_of_bounds x.O hO1 hO5]; unfold denormalizeScore; ring
  · rw [normalizeScore_of_bounds x.C hC1 hC5]; unfold denormalizeScore; ring
  · rw [normalizeScore_of_bounds x.E hE1 hE5]; unfold denormalizeScore; ring
  · rw [normalizeScore_of_bounds x.A hA1 hA5]; unfold denormalizeScore; ring
  · rw [normalizeScore_of_bounds x.N hN1 hN5]; unfold denormalizeScore; ring

/-- Witness for Claim C10 at the all-3s trait vector. -/
theorem blendScores_self_identity_witness :
    blendScores ⟨3, 3, 3, 3, 3⟩ (rawToNormalized ⟨3, 3, 3, 3, 3⟩) = ⟨3, 3, 3, 3, 3⟩ :=
  blendScores_self_identity ⟨3, 3, 3, 3, 3⟩ (by norm_num) (by norm_num) (by norm_num)
    (by norm_num) (by norm_num) (by norm_num) (by norm_num) (by norm_num)
    (by norm_num) (by norm_num)

/-- Claim C6: `isAssessmentComplete` returns true at or above the question
cap, false below the floor, and otherwise true iff every trait's variance is
strictly below the threshold; and it is monotone in more questions and
lower variances, all other arguments fixed. -/
theorem isAssessmentComplete_spec_monotone :
    (∀ (v : TraitVariances) (k : ℕ) (th : ℚ) (mn mx : ℕ),
      (k ≥ mx → isAssessmentComplete v k th mn mx = true) ∧
      (k < mx → k < mn → isAssessmentComplete v k th mn mx = false) ∧
      (k < mx → mn ≤ k →
        (isAssessmentComplete v k th mn mx = true ↔
          (v.O < th ∧ v.C < th ∧ v.E < th ∧ v.A < th ∧ v.N < th)))) ∧
    (∀ (v v' : TraitVariances) (k k' : ℕ) (th : ℚ) (mn mx : ℕ),
      k ≤ mx → k ≤ k' →
      v'.O ≤ v.O → v'.C ≤ v.C → v'.E ≤ v.E → v'.A ≤ v.A → v'.N ≤ v.N →
      isAssessmentComplete v k th mn mx = true →
      isAssessmentComplete v' k' th mn mx = true) := by
  constructor
  · intro v k th mn mx
    unfold isAssessmentComplete
    refine ⟨fun h => ?_, fun h1 h2 => ?_, fun h1 h2 => ?_⟩
    · rw [if_pos h]
    · rw [if_neg (by omega), if_pos h2]
    · rw [if_neg (by omega), if_neg (by omega)]
      simp [List.all_cons, List.all_nil, and_assoc]
  · intro v v' k k' th mn mx hkmx hkk hO hC hE hA hN htrue
    unfold isAssessmentComplete at htrue ⊢
    by_cases hk' : k' ≥ mx
    · rw [if_pos hk']
    · have hkx : ¬ k ≥ mx := by omega
      rw [if_neg hkx] at htrue
      by_cases hmn : k < mn
      · rw [if_pos hmn] at htrue; exact absurd htrue (by simp)
      · rw [if_neg hmn] at htrue
        rw [if_neg hk', if_neg (by omega : ¬ k' < mn)]
        simp only [List.all_cons, List.all_nil, Bool.and_true, Bool.and_eq_true,
          decide_eq_true_eq] at htrue ⊢
        obtain ⟨h1, h2, h3, h4, h5⟩ := htrue
        exact ⟨by linarith, by linarith, by linarith, by linarith, by linarith⟩

/-- Witness for Claim C6: monotonicity applied from question 9 with all
variances 0.2 (complete) to question 10 with all variances 0.1. -/
theorem isAssessmentComplete_spec_monotone_witness :
    isAssessmentComplete ⟨0.1, 0.1, 0.1, 0.1, 0.1⟩ 10 0.3 8 15 = true :=
  isAssessmentComplete_spec_monotone.2 ⟨0.2, 0.2, 0.2, 0.2, 0.2⟩
    ⟨0.1, 0.1, 0.1, 0.1, 0.1⟩ 9 10 0.3 8 15 (by norm_num) (by norm_num)
    (by norm_num) (by norm_num) (by norm_num) (by norm_num) (by norm_num)
    (by simp only [isAssessmentComplete, List.all_cons, List.all_nil]; norm_num)

/-- Position of a trait in the enumeration order O, C, E, A, N used by
`selectHighestVarianceTrait`. -/
def traitOrderIndex : OceanTrait → ℕ
  | .O => 0
  | .C => 1
  | .E => 2
  | .A => 3
  | .N => 4

/-- Counterexample to Claim C5: on the degenerate all-equal variance map
(all 1.0, the initial default), `selectHighestVarianceTrait` returns `O`
(the first trait in enumeration order), not the claimed default `C`. -/
theorem selectHighestVarianceTrait_degenerate_O :
    selectHighestVarianceTrait ⟨1, 1, 1, 1, 1⟩ = OceanTrait.O ∧
    OceanTrait.O ≠ OceanTrait.C := by
  constructor
  · simp only [selectHighestVarianceTrait, TraitVariances.get,
      List.foldl_cons, List.foldl_nil]
    norm_num
  · simp

set_option maxHeartbeats 1600000 in
/-- Claim C5 as amended: for nonnegative variance maps,
`selectHighestVarianceTrait` returns a trait of maximal variance, ties
broken by the first position in the enumeration order O, C, E, A, N (so the
degenerate all-equal map yields O; the `C` initialization is never the
tie-break default). -/
theorem selectHighestVarianceTrait_argmax (v : TraitVariances)
    (hO : 0 ≤ v.O) (hC : 0 ≤ v.C) (hE : 0 ≤ v.E) (hA : 0 ≤ v.A) (hN : 0 ≤ v.N) :
    (∀ t, v.get t ≤ v.get (selectHighestVarianceTrait v)) ∧
    (∀ t, traitOrderIndex t < traitOrderIndex (selectHighestVarianceTrait v) →
      v.get t < v.get (selectHighestVarianceTrait v)) := by
  simp only [selectHighestVarianceTrait, TraitVariances.get,
    List.foldl_cons, List.foldl_nil]
  split_ifs <;>
    first
      | (exfalso; linarith)
      | (constructor <;> intro t <;> cases t <;>
          simp_all [TraitVariances.get, traitOrderIndex] <;> linarith)

/-- Witness for the amended Claim C5 at the strictly decreasing map. -/
theorem selectHighestVarianceTrait_argmax_witness :
    TraitVariances.get ⟨5, 4, 3, 2, 1⟩ OceanTrait.C ≤
      TraitVariances.get ⟨5, 4, 3, 2, 1⟩
        (selectHighestVarianceTrait ⟨5, 4, 3, 2, 1⟩) :=
  (selectHighestVarianceTrait_argmax ⟨5, 4, 3, 2, 1⟩ (by norm_num) (by norm_num)
    (by norm_num) (by norm_num) (by norm_num)).1 OceanTrait.C

-- ============ Totality of the behavioral pipeline (no NaN/Infinity) ============

/-- `divO` succeeds on every nonzero denominator. -/
lemma divO_of_ne {a b : ℚ} (h : b ≠ 0) : divO a b = some (a / b) := by
  simp [divO, h]

/-- `divO` is defined on every nonzero denominator. -/
lemma divO_isSome {a b : ℚ} (h : b ≠ 0) : (divO a b).isSome = true := by
  simp [divO, h]

/-- `sqrtO` succeeds on every nonnegative argument. -/
lemma sqrtO_of_nonneg (f : ℚ → ℚ) {x : ℚ} (h : 0 ≤ x) : sqrtO f x = some (f x) := by
  simp [sqrtO, not_lt.mpr h]

/-- A bind of defined computations is defined. -/
lemma bind_isSome {α β : Type} {o : Option α} {f : α → Option β}
    (h : o.isSome = true) (hf : ∀ a, (f a).isSome = true) :
    (o.bind f).isSome = true := by
  obtain ⟨a, rfl⟩ := Option.isSome_iff_exists.mp h
  simpa using hf a

/-- Sums of squared deviations are nonnegative. -/
lemma sum_sq_nonneg (l : List ℚ) (m : ℚ) :
    0 ≤ (l.map (fun v => (v - m) ^ 2)).sum := by
  apply List.sum_nonneg
  intro x hx
  obtain ⟨v, _, rfl⟩ := List.mem_map.mp hx
  positivity

/-- A list of nonzero length has a nonzero rational length. -/
lemma len_cast_ne {α : Type} {l : List α} (h : l.length ≠ 0) :
    ((l.length : ℚ)) ≠ 0 := by
  exact_mod_cast h

/-- `computePathEfficiency` is defined on every input. -/
lemma computePathEfficiency_isSome (paths : List PathRecord) :
    (computePathEfficiency paths).isSome = true := by
  unfold computePathEfficiency
  split_ifs with h
  · simp
  · exact divO_isSome (by rw [List.length_map]; exact len_cast_ne h)

/-- `computeBankingRegularity` is defined on every input. -/
lemma computeBankingRegularity_isSome (f : ℚ → ℚ) (events : List BankingEvent)
    (d : ℚ) : (computeBankingRegularity f events d).isSome = true := by
  simp only [computeBankingRegularity]
  split_ifs with hlen h1
  · simp
  · simp
  · have hIlen : (bankingIntervals events).length ≠ 0 := by
      unfold bankingIntervals
      rw [List.length_map, List.length_zip, List.length_tail]
      omega
    rw [divO_of_ne (len_cast_ne hIlen)]
    simp only [Option.bind_eq_bind, Option.some_bind]
    split_ifs with hmean
    · simp
    · rw [divO_of_ne (len_cast_ne hIlen)]
      simp only [Option.bind_eq_bind, Option.some_bind]
      rw [sqrtO_of_nonneg f (div_nonneg (sum_sq_nonneg _ _) (by positivity))]
      simp only [Option.bind_eq_bind, Option.some_bind]
      rw [divO_of_ne hmean]
      simp

/-- `computeTapDeliberation` is defined on every input. -/
lemma computeTapDeliberation_isSome (velocities : List ℚ) :
    (computeTapDeliberation velocities).isSome = true := by
  unfold computeTapDeliberation
  split_ifs with h
  · simp
  · rw [divO_of_ne (len_cast_ne h)]
    simp only [Option.bind_eq_bind, Option.some_bind]
    simp

/-- `computePostLossChange` is defined on every input. -/
lemma computePostLossChange_isSome (lossEvents : List LossEvent)
    (velocities : List ℚ) :
    (computePostLossChange lossEvents velocities).isSome = true := by
  unfold computePostLossChange
  split_ifs with h
  · simp
  · rw [divO_of_ne (len_cast_ne h)]
    simp only [Option.bind_eq_bind, Option.some_bind]
    simp

/-- `computeHesitationPattern` is defined on every input. -/
lemma computeHesitationPattern_isSome (f : ℚ → ℚ) (velocities : List ℚ) :
    (computeHesitationPattern f velocities).isSome = true := by
  unfold computeHesitationPattern
  split_ifs with h
  · simp
  · have hne : velocities.length ≠ 0 := by omega
    rw [divO_of_ne (len_cast_ne hne)]
    simp only [Option.bind_eq_bind, Option.some_bind]
    rw [divO_of_ne (len_cast_ne hne)]
    simp only [Option.bind_eq_bind, Option.some_bind]
    rw [sqrtO_of_nonneg f (div_nonneg (sum_sq_nonneg _ _) (by positivity))]
    simp only [Option.bind_eq_bind, Option.some_bind]
    simp

/-- `computeSharingRate` is defined on every input. -/
lemma computeSharingRate_isSome (events : List SharingEvent) :
    (computeSharingRate events).isSome = true := by
  unfold computeSharingRate
  split_ifs <;> simp

/-- `computeTipRate` is defined on every input. -/
lemma computeTipRate_isSome (events : List SharingEvent) :
    (computeTipRate events).isSome = true := by
  unfold computeTipRate
  split_ifs with h
  · simp
  · rw [divO_of_ne (len_cast_ne h)]
    simp only [Option.bind_eq_bind, Option.some_bind]
    simp

/-- `computeHelpAcceptance` is defined on every input. -/
lemma computeHelpAcceptance_isSome (events : List SharingEvent) :
    (computeHelpAcceptance events).isSome = true := by
  simp only [computeHelpAcceptance]
  split_ifs with h1 h2
  · simp
  · simp
  · exact divO_isSome (len_cast_ne h2)

/-- `computeShortcutUsage` is defined on every input. -/
lemma computeShortcutUsage_isSome (paths : List PathRecord) :
    (computeShortcutUsage paths).isSome = true := by
  simp only [computeShortcutUsage]
  split_ifs with h
  · simp
  · rw [divO_of_ne (len_cast_ne h)]
    simp only [Option.bind_eq_bind, Option.some_bind]
    simp

/-- `computeMultiOrderRate` is defined on every input. -/
lemma computeMultiOrderRate_isSome (counts : List ℚ) :
    (computeMultiOrderRate counts).isSome = true := by
  unfold computeMultiOrderRate
  split_ifs with h
  · simp
  · exact divO_isSome (len_cast_ne h)

/-- `computeBartScore` is defined on every input. -/
lemma computeBartScore_isSome (cargoLoads : List CargoLoad) :
    (computeBartScore cargoLoads).isSome = true := by
  simp only [computeBartScore]
  split_ifs with h
  · simp
  · rw [divO_of_ne (len_cast_ne h)]
    simp only [Option.bind_eq_bind, Option.some_bind]
    simp

/-- `computeBehavioralC` is defined on every input. -/
lemma computeBehavioralC_isSome (f : ℚ → ℚ) (signals : BehavioralSignals) :
    (computeBehavioralC f signals).isSome = true := by
  unfold computeBehavioralC
  refine bind_isSome (computePathEfficiency_isSome _) fun pe => ?_
  refine bind_isSome (computeBankingRegularity_isSome f _ _) fun br => ?_
  refine bind_isSome (computeTapDeliberation_isSome _) fun td => ?_
  simp

/-- `computeBehavioralN` is defined on every input. -/
lemma computeBehavioralN_isSome (f : ℚ → ℚ) (signals : BehavioralSignals) :
    (computeBehavioralN f signals).isSome = true := by
  unfold computeBehavioralN
  refine bind_isSome (computePostLossChange_isSome _ _) fun pl => ?_
  refine bind_isSome (computeHesitationPattern_isSome f _) fun hp => ?_
  refine bind_isSome (computeBartScore_isSome _) fun b => ?_
  simp

/-- `computeBehavioralA` is defined on every input. -/
lemma computeBehavioralA_isSome (signals : BehavioralSignals) :
    (computeBehavioralA signals).isSome = true := by
  unfold computeBehavioralA
  refine bind_isSome (computeSharingRate_isSome _) fun sr => ?_
  refine bind_isSome (computeTipRate_isSome _) fun tr => ?_
  refine bind_isSome (computeHelpAcceptance_isSome _) fun ha => ?_
  simp

/-- `computeBehavioralO` is defined on every input. -/
lemma computeBehavioralO_isSome (signals : BehavioralSignals) :
    (computeBehavioralO signals).isSome = true := by
  unfold computeBehavioralO
  refine bind_isSome (computeShortcutUsage_isSome _) fun su => ?_
  refine bind_isSome (computeBartScore_isSome _) fun b => ?_
  simp

/-- `computeBehavioralE` is defined on every input. -/
lemma computeBehavioralE_isSome (signals : BehavioralSignals) :
    (computeBehavioralE signals).isSome = true := by
  unfold computeBehavioralE
  refine bind_isSome (computeMultiOrderRate_isSome _) fun mr => ?_
  simp

/-- Claim C7: on every (finite, rational) behavioral signal bundle the
behavioral scoring pipeline is total — no division by zero and no square
root of a negative ever occurs along its control flow, which is exactly
the absence of NaN/Infinity in the source — for every choice of square-root
primitive; moreover 0 banking events give bankingRegularity 0.2, exactly
one gives 0.5, and `computeBartScore` on a cargo list with no non-tipped
deliveries (in particular the empty list) is exactly 0.5. -/
theorem behavioralScores_total :
    (∀ (sqrtFn : ℚ → ℚ) (signals : BehavioralSignals),
      (computeAllBehavioralScores sqrtFn signals).isSome = true) ∧
    (∀ (sqrtFn : ℚ → ℚ) (d : ℚ),
      computeBankingRegularity sqrtFn [] d = some 0.2) ∧
    (∀ (sqrtFn : ℚ → ℚ) (e : BankingEvent) (d : ℚ),
      computeBankingRegularity sqrtFn [e] d = some 0.5) ∧
    (∀ cargoLoads : List CargoLoad, (∀ c ∈ cargoLoads, c.tipped = true) →
      computeBartScore cargoLoads = some 0.5) := by
  refine ⟨?_, ?_, ?_, ?_⟩
  · intro sqrtFn signals
    unfold computeAllBehavioralScores
    refine bind_isSome (computeBehavioralC_isSome sqrtFn signals) fun c => ?_
    refine bind_isSome (computeBehavioralN_isSome sqrtFn signals) fun n => ?_
    refine bind_isSome (computeBehavioralA_isSome signals) fun a => ?_
    refine bind_isSome (computeBehavioralO_isSome signals) fun o => ?_
    refine bind_isSome (computeBehavioralE_isSome signals) fun e => ?_
    simp
  · intro sqrtFn d
    simp [computeBankingRegularity]
  · intro sqrtFn e d
    simp [computeBankingRegularity]
  · intro cargoLoads h
    have hnil : cargoLoads.filter (fun c => !c.tipped) = [] := by
      rw [List.filter_eq_nil_iff]
      intro c hc
      simp [h c hc]
    simp only [computeBartScore]
    rw [hnil]
    simp

/-- Witness for Claim C7: the empty cargo list has no non-tipped
deliveries, and its BART score is exactly 0.5. -/
theorem behavioralScores_total_witness :
    computeBartScore [] = some 0.5 :=
  behavioralScores_total.2.2.2 [] (by intro c hc; cases hc)

end LoanMonk
